import Mathlib

/-!
Verification of the gemini-chat-agent backend.

This file embeds the core of the repository in Lean 4:
the text/email/phone sanitizers (`backend/utils/sanitize.py`),
the Pydantic lead validators (`backend/models/lead.py`),
the lead store read (`backend/services/sheets.py`),
the conversation agent (`backend/agentes/agente_gemini.py`)
and the chat session routes (`api/routes/chat.py`,
`backend/api/routes/leads.py`), and proves or refutes the
specification claims about them.
-/

namespace GeminiChat

/-! ## `backend/utils/sanitize.py` -/

/-- The single-quote character (written via its code point). -/
def squote : Char := Char.ofNat 39

/-- The double-quote character (written via its code point). -/
def dquote : Char := Char.ofNat 34

/-- Python `str.strip()` whitespace set (ASCII part). -/
def pyIsSpace (c : Char) : Bool :=
  c == ' ' || c == '\t' || c == '\n' || c == '\r' || c == '\x0b' || c == '\x0c'

/-- Python `str.strip()`: drop whitespace at both ends. -/
def pyStrip (l : List Char) : List Char :=
  ((l.dropWhile pyIsSpace).reverse.dropWhile pyIsSpace).reverse

mutual

/-- Modelled from the spec: the external `bleach.clean(texto, tags=[],
strip=True)` call ("remove any markup tags"); modelled as a stripper that
deletes every `<`…`>` tag region, keeping surrounding text. -/
def removeTags : List Char → List Char
  | [] => []
  | c :: rest => if c = '<' then dropTag rest else c :: removeTags rest

/-- Inside a markup tag: skip until the closing `>`. -/
def dropTag : List Char → List Char
  | [] => []
  | c :: rest => if c = '>' then removeTags rest else dropTag rest

end

/-- Characters surviving the `re.sub(r'[<>]', '', ...)` step. -/
def noAngles (c : Char) : Bool := !(c == '<' || c == '>')

/-- Characters surviving the `re.sub` step whose character class holds the
single quote, `;`, and the escaped double quote followed by `--`: the last
three characters parse as the RANGE from the double quote (0x22) to `-`
(0x2D), so `#$%&()*+,` and the quotes and `-` are all removed as well. -/
def noSqlChar (c : Char) : Bool :=
  !(c == squote || c == ';' || (decide (dquote ≤ c) && decide (c ≤ '-')))

/-- The sanitization pipeline of `sanitizar_texto` on character lists:
tag removal, angle-bracket removal, SQL-metacharacter removal, strip. -/
def sanitizeList (l : List Char) : List Char :=
  pyStrip (((removeTags l).filter noAngles).filter noSqlChar)

/-- `sanitizar_texto` from `backend/utils/sanitize.py`: empty input is
returned unchanged, otherwise the four-step cleaning pipeline runs. -/
def sanitizar_texto (texto : String) : String :=
  if texto = "" then texto else String.mk (sanitizeList texto.data)

/-! ### Helper lemmas for the sanitizer -/

theorem dw_head_false {p : Char → Bool} :
    ∀ {l : List Char} {c : Char} {t : List Char},
      l.dropWhile p = c :: t → p c = false := by
  intro l
  induction l with
  | nil => intro c t h; simp [List.dropWhile] at h
  | cons a as ih =>
    intro c t h
    by_cases hp : p a
    · rw [List.dropWhile_cons_of_pos hp] at h
      exact ih h
    · rw [List.dropWhile_cons_of_neg hp] at h
      cases h
      simp at hp
      exact hp

theorem dw_append_single {p : Char → Bool} {c : Char} (hc : p c = false) :
    ∀ l : List Char, (l ++ [c]).dropWhile p = l.dropWhile p ++ [c] := by
  intro l
  induction l with
  | nil => simp [List.dropWhile_cons, hc]
  | cons a as ih =>
    by_cases hp : p a
    · simp only [List.cons_append, List.dropWhile_cons_of_pos hp, ih]
    · simp [List.cons_append, List.dropWhile_cons_of_neg hp]

theorem dw_idem (p : Char → Bool) (l : List Char) :
    (l.dropWhile p).dropWhile p = l.dropWhile p := by
  cases h : l.dropWhile p with
  | nil => simp
  | cons c t =>
    have hc : p c = false := dw_head_false h
    simp [List.dropWhile_cons, hc]

theorem pyStrip_idem (l : List Char) : pyStrip (pyStrip l) = pyStrip l := by
  unfold pyStrip
  cases h1 : l.dropWhile pyIsSpace with
  | nil => simp [h1]
  | cons c t =>
    have hc : pyIsSpace c = false := dw_head_false h1
    have hc2 : ¬ pyIsSpace c = true := by simp [hc]
    rw [List.reverse_cons, dw_append_single hc, List.reverse_append,
      List.reverse_singleton, List.singleton_append,
      List.dropWhile_cons_of_neg hc2, List.reverse_cons, List.reverse_reverse,
      dw_append_single hc, dw_idem, List.reverse_append,
      List.reverse_singleton, List.singleton_append]

theorem mem_of_mem_dw {p : Char → Bool} {c : Char} :
    ∀ {l : List Char}, c ∈ l.dropWhile p → c ∈ l := by
  intro l
  induction l with
  | nil => intro h; simp at h
  | cons a as ih =>
    intro h
    by_cases hp : p a
    · rw [List.dropWhile_cons_of_pos hp] at h
      exact List.mem_cons_of_mem _ (ih h)
    · rwa [List.dropWhile_cons_of_neg hp] at h

theorem mem_of_mem_pyStrip {c : Char} {l : List Char} :
    c ∈ pyStrip l → c ∈ l := by
  intro h
  unfold pyStrip at h
  rw [List.mem_reverse] at h
  have h2 := mem_of_mem_dw h
  rw [List.mem_reverse] at h2
  exact mem_of_mem_dw h2

theorem removeTags_eq_self :
    ∀ {l : List Char}, (∀ c ∈ l, c ≠ '<') → removeTags l = l := by
  intro l
  induction l with
  | nil => intro _; rfl
  | cons a as ih =>
    intro h
    have ha : a ≠ '<' := h a (List.mem_cons_self a as)
    rw [removeTags, if_neg ha, ih fun c hc => h c (List.mem_cons_of_mem _ hc)]

theorem filter_eq_self_of_all {p : Char → Bool} {l : List Char}
    (h : ∀ c ∈ l, p c = true) : l.filter p = l :=
  List.filter_eq_self.mpr h

theorem sanitizeList_idem (l : List Char) :
    sanitizeList (sanitizeList l) = sanitizeList l := by
  set L := ((removeTags l).filter noAngles).filter noSqlChar with hL
  have hmemL : ∀ c ∈ L, noAngles c = true ∧ noSqlChar c = true := by
    intro c hc
    rw [hL] at hc
    have h1 := List.of_mem_filter hc
    have h2 := List.mem_of_mem_filter hc
    exact ⟨List.of_mem_filter h2, h1⟩
  have hmemS : ∀ c ∈ pyStrip L, noAngles c = true ∧ noSqlChar c = true :=
    fun c hc => hmemL c (mem_of_mem_pyStrip hc)
  have hlt : ∀ c ∈ pyStrip L, c ≠ '<' := by
    intro c hc heq
    have := (hmemS c hc).1
    rw [heq] at this
    simp [noAngles] at this
  show sanitizeList (pyStrip L) = pyStrip L
  unfold sanitizeList
  rw [removeTags_eq_self hlt,
    filter_eq_self_of_all (fun c hc => (hmemS c hc).1),
    filter_eq_self_of_all (fun c hc => (hmemS c hc).2),
    pyStrip_idem]

/-- C3: the text sanitizer is idempotent. -/
theorem c3_sanitizar_texto_idempotent (x : String) :
    sanitizar_texto (sanitizar_texto x) = sanitizar_texto x := by
  by_cases hx : x = ""
  · subst hx
    simp [sanitizar_texto]
  · have hx1 : sanitizar_texto x = String.mk (sanitizeList x.data) := by
      rw [sanitizar_texto, if_neg hx]
    rw [hx1]
    by_cases hy : String.mk (sanitizeList x.data) = ""
    · rw [hy]
      simp [sanitizar_texto]
    · rw [sanitizar_texto, if_neg hy]
      show String.mk (sanitizeList (sanitizeList x.data)) = _
      rw [sanitizeList_idem]

/-- `sanitizar_email` from `backend/utils/sanitize.py`: lower-case, strip,
then remove internal spaces; empty input is returned unchanged. -/
def sanitizar_email (email : String) : String :=
  if email = "" then email
  else
    String.mk ((pyStrip (email.data.map Char.toLower)).filter (fun c => c != ' '))

/-- `sanitizar_telefono` from `backend/utils/sanitize.py`: `None` for a falsy
input, otherwise keep only the digits and return `None` unless exactly 10
digits remain. -/
def sanitizar_telefono (telefono : Option String) : Option String :=
  match telefono with
  | none => none
  | some t =>
    if t = "" then none
    else
      let limpio := String.mk (t.data.filter Char.isDigit)
      if limpio.length = 10 then some limpio else none

/-! ## `backend/models/lead.py` (the `LeadCreate` validators) -/

/-- `LeadCreate.validar_empresa`: reject when the raw value strips to empty
or when the sanitized value has fewer than 2 characters. -/
def validar_empresa (v : String) : Except String String :=
  if String.mk (pyStrip v.data) = "" then
    .error "El nombre de la empresa no puede estar vacío"
  else
    let sanitizado := sanitizar_texto v
    if sanitizado.length < 2 then
      .error "El nombre de la empresa debe tener al menos 2 caracteres válidos"
    else .ok sanitizado

/-- `LeadCreate.validar_nombre`: same shape as `validar_empresa`. -/
def validar_nombre (v : String) : Except String String :=
  if String.mk (pyStrip v.data) = "" then
    .error "El nombre no puede estar vacío"
  else
    let sanitizado := sanitizar_texto v
    if sanitizado.length < 2 then
      .error "El nombre debe tener al menos 2 caracteres válidos"
    else .ok sanitizado

/-- Modelled from the spec: the structural email check done by the external
`EmailStr`/email-validator dependency, which is not part of this repository
("validate structural correctness (local-part@domain)"): exactly one `@`,
non-empty local part and domain, no spaces, dotted domain. -/
def emailStructOk (e : String) : Bool :=
  let l := e.data
  let lp := l.takeWhile (fun c => c != '@')
  let dom := (l.dropWhile (fun c => c != '@')).drop 1
  l.count '@' == 1 && !lp.isEmpty && !dom.isEmpty &&
    !l.contains ' ' && dom.contains '.'

/-- The `email` field of `LeadCreate`: `EmailStr` strips the raw value and
checks its structure, then `LeadCreate.validar_email` applies
`sanitizar_email`. -/
def validar_email (v : String) : Except String String :=
  let e := String.mk (pyStrip v.data)
  if emailStructOk e then .ok (sanitizar_email e)
  else .error "value is not a valid email address"

/-- `LeadCreate.validar_telefono`: `None` for a falsy value, otherwise
sanitize to digits, require exactly 10 of them and a leading `3`. -/
def validar_telefono (v : Option String) : Except String (Option String) :=
  match v with
  | none => .ok none
  | some s =>
    if s = "" then .ok none
    else
      match sanitizar_telefono (some s) with
      | none => .error "El teléfono debe tener exactamente 10 dígitos"
      | some sanitizado =>
        if sanitizado.length ≠ 10 then
          .error "El teléfono debe tener exactamente 10 dígitos"
        else if ¬ (("3" : String).data.isPrefixOf sanitizado.data) then
          .error "El teléfono debe empezar con 3"
        else .ok (some sanitizado)

/-- `LeadCreate.validar_mensaje`: sanitize; an empty result becomes absence. -/
def validar_mensaje (v : Option String) : Option String :=
  match v with
  | none => none
  | some s =>
    if s = "" then none
    else
      let sanitizado := sanitizar_texto s
      if sanitizado = "" then none else some sanitizado

/-- Pydantic `Field(min_length=2, max_length=100)` on `empresa` followed by
`validar_empresa`; the raw-length constraints run before the validator. -/
def empresaField (v : String) : Except (String × String) String :=
  if v.length < 2 then
    .error ("empresa", "ensure this value has at least 2 characters")
  else if 100 < v.length then
    .error ("empresa", "ensure this value has at most 100 characters")
  else
    match validar_empresa v with
    | .error m => .error ("empresa", m)
    | .ok s => .ok s

/-- Pydantic `Field(min_length=2, max_length=100)` on `nombre` followed by
`validar_nombre`. -/
def nombreField (v : String) : Except (String × String) String :=
  if v.length < 2 then
    .error ("nombre", "ensure this value has at least 2 characters")
  else if 100 < v.length then
    .error ("nombre", "ensure this value has at most 100 characters")
  else
    match validar_nombre v with
    | .error m => .error ("nombre", m)
    | .ok s => .ok s

/-- The `email` field of `LeadCreate` with its error tagged by field name. -/
def emailField (v : String) : Except (String × String) String :=
  match validar_email v with
  | .error m => .error ("email", m)
  | .ok s => .ok s

/-- Pydantic `Field(None, min_length=10, max_length=10)` on `telefono`
followed by `validar_telefono`; the raw-length constraints run before the
validator and are skipped only when the value is absent. -/
def telefonoField (v : Option String) : Except (String × String) (Option String) :=
  match v with
  | none => .ok none
  | some s =>
    if s.length < 10 then
      .error ("telefono", "ensure this value has at least 10 characters")
    else if 10 < s.length then
      .error ("telefono", "ensure this value has at most 10 characters")
    else
      match validar_telefono (some s) with
      | .error m => .error ("telefono", m)
      | .ok r => .ok r

/-- Pydantic `Field(None, max_length=500)` on `mensaje` followed by
`validar_mensaje` (which never fails). -/
def mensajeField (v : Option String) : Except (String × String) (Option String) :=
  match v with
  | none => .ok none
  | some s =>
    if 500 < s.length then
      .error ("mensaje", "ensure this value has at most 500 characters")
    else .ok (validar_mensaje (some s))

/-- The raw body of a `POST /leads` request. -/
structure LeadInput where
  empresa : String
  nombre : String
  email : String
  telefono : Option String
  mensaje : Option String

/-- A fully validated `LeadCreate` model. -/
structure ValidLead where
  empresa : String
  nombre : String
  email : String
  telefono : Option String
  mensaje : Option String
deriving DecidableEq

/-- Pydantic validation of a `LeadCreate` body, fields in declaration order;
FastAPI rejects the request with a 422 naming the field when any fails. -/
def validateLead (i : LeadInput) : Except (String × String) ValidLead := do
  let e ← empresaField i.empresa
  let n ← nombreField i.nombre
  let em ← emailField i.email
  let t ← telefonoField i.telefono
  let m ← mensajeField i.mensaje
  pure ⟨e, n, em, t, m⟩

/-- `crear_lead` from `backend/api/routes/leads.py` together with the store
interaction: the handler body runs only when validation succeeded and then
appends exactly one row via `sheets_service.guardar_lead`; on validation
failure the request is rejected and the store is untouched. -/
def crear_lead_route (i : LeadInput) (leadId fecha : String)
    (store : List (List (Option String))) :
    Except (String × String) (List (Option String)) × List (List (Option String)) :=
  match validateLead i with
  | .error e => (.error e, store)
  | .ok L =>
    let fila : List (Option String) :=
      [some leadId, some L.empresa, some L.nombre, some L.email,
       L.telefono, L.mensaje, some fecha, some "nuevo"]
    (.ok fila, store ++ [fila])

/-! ### Claims C5, C6, C8, C9 -/

/-- C5 (code bug): the claim says a lead submission with phone
`"300-123-4567"` is accepted and normalized to `"3001234567"`.  In the code
the Pydantic raw-length constraint `Field(min_length=10, max_length=10)`
runs before the `validar_telefono` validator, so the 12-character raw value
is rejected with a length error and the digit-stripping sanitizer is never
reached; the validator alone (the documented intent) would accept it.  An
empty string is likewise rejected by `min_length` instead of becoming
absence. -/
theorem c5_phone_field_rejects_formatted_input :
    telefonoField (some "300-123-4567") =
      .error ("telefono", "ensure this value has at most 10 characters")
    ∧ validar_telefono (some "300-123-4567") = .ok (some "3001234567")
    ∧ telefonoField (some "") =
      .error ("telefono", "ensure this value has at least 10 characters")
    ∧ telefonoField none = .ok none :=
  ⟨rfl, rfl, rfl, rfl⟩

/-- C6: a lead whose company strips to empty (or sanitizes below 2
characters) is rejected with a validation error naming `empresa`, and no
row is appended to the store. -/
theorem c6_empty_company_never_stored
    (i : LeadInput) (leadId fecha : String)
    (store : List (List (Option String)))
    (h : String.mk (pyStrip i.empresa.data) = ""
        ∨ (sanitizar_texto i.empresa).length < 2) :
    (∃ m, (crear_lead_route i leadId fecha store).1 = .error ("empresa", m))
    ∧ (crear_lead_route i leadId fecha store).2 = store := by
  have hf : ∃ m, empresaField i.empresa = .error ("empresa", m) := by
    rw [empresaField]
    by_cases h2 : i.empresa.length < 2
    · rw [if_pos h2]; exact ⟨_, rfl⟩
    · rw [if_neg h2]
      by_cases h100 : 100 < i.empresa.length
      · rw [if_pos h100]; exact ⟨_, rfl⟩
      · rw [if_neg h100, validar_empresa]
        by_cases hstrip : String.mk (pyStrip i.empresa.data) = ""
        · rw [if_pos hstrip]; exact ⟨_, rfl⟩
        · rw [if_neg hstrip]
          have hlen : (sanitizar_texto i.empresa).length < 2 :=
            h.resolve_left hstrip
          rw [if_pos hlen]; exact ⟨_, rfl⟩
  obtain ⟨m, hm⟩ := hf
  have hv : validateLead i = .error ("empresa", m) := by
    rw [validateLead, hm]
    rfl
  exact ⟨⟨m, by rw [crear_lead_route, hv]⟩, by rw [crear_lead_route, hv]⟩

/-- Witness for C6 at the concrete input with company `"  "`. -/
theorem c6_empty_company_witness :
    (∃ m, (crear_lead_route ⟨"  ", "Juan", "juan@a.com", none, none⟩
        "id1" "t1" []).1 = .error ("empresa", m))
    ∧ (crear_lead_route ⟨"  ", "Juan", "juan@a.com", none, none⟩
        "id1" "t1" []).2 = [] :=
  c6_empty_company_never_stored _ _ _ _ (Or.inl (by decide))

/-- C8: the email field of a lead is structurally validated, lower-cased and
whitespace-stripped: `"  JUAN@Test.com "` normalizes to `"juan@test.com"`,
malformed input fails with a validation error, and every accepted value is
free of spaces. -/
theorem c8_email_normalized :
    validar_email "  JUAN@Test.com " = .ok "juan@test.com"
    ∧ validar_email "juan.test.com" = .error "value is not a valid email address"
    ∧ (∀ v s, validar_email v = .ok s → ' ' ∉ s.data) := by
  refine ⟨rfl, rfl, ?_⟩
  intro v s h
  rw [validar_email] at h
  by_cases hok : emailStructOk (String.mk (pyStrip v.data)) = true
  · rw [if_pos hok] at h
    cases h
    rw [sanitizar_email]
    by_cases he0 : String.mk (pyStrip v.data) = ""
    · rw [if_pos he0, he0]
      simp
    · rw [if_neg he0]
      intro hmem
      have hp := List.of_mem_filter (p := fun c => c != ' ') hmem
      simp at hp
  · rw [if_neg hok] at h
    cases h

/-- Witness for C8 at the concrete accepted input. -/
theorem c8_email_witness : ' ' ∉ ("juan@test.com" : String).data :=
  c8_email_normalized.2.2 "  JUAN@Test.com " "juan@test.com"
    c8_email_normalized.1

/-- C9: the low-level phone sanitizer is total and returns either absence or
a string of exactly 10 digits, while the field validator turns a sanitizer
absence on a non-empty input into a validation error. -/
theorem c9_sanitizer_absence_validator_error :
    (∀ t s, sanitizar_telefono t = some s →
      s.length = 10 ∧ s.data.all Char.isDigit = true)
    ∧ (∀ v, v ≠ "" → sanitizar_telefono (some v) = none →
        validar_telefono (some v)
          = .error "El teléfono debe tener exactamente 10 dígitos") := by
  constructor
  · intro t s h
    cases t with
    | none => simp [sanitizar_telefono] at h
    | some x =>
      rw [sanitizar_telefono] at h
      by_cases hx : x = ""
      · rw [if_pos hx] at h
        cases h
      · rw [if_neg hx] at h
        by_cases hl : (String.mk (x.data.filter Char.isDigit)).length = 10
        · rw [if_pos hl] at h
          cases h
          refine ⟨hl, ?_⟩
          rw [List.all_eq_true]
          intro c hc
          exact List.of_mem_filter (p := Char.isDigit) hc
        · rw [if_neg hl] at h
          cases h
  · intro v hv hnone
    rw [validar_telefono, if_neg hv, hnone]

/-- Witness for C9 at the concrete inputs `"300-123-4567"` and `"12345"`. -/
theorem c9_phone_witness :
    (("3001234567" : String).length = 10
      ∧ ("3001234567" : String).data.all Char.isDigit = true)
    ∧ validar_telefono (some "12345")
        = .error "El teléfono debe tener exactamente 10 dígitos" :=
  ⟨c9_sanitizer_absence_validator_error.1 (some "300-123-4567") "3001234567"
      (by decide),
   c9_sanitizer_absence_validator_error.2 "12345" (by decide) (by decide)⟩

/-! ## `backend/services/sheets.py` -/

/-- One lead record as read back from the spreadsheet. -/
structure LeadDict where
  id : String
  empresa : String
  nombre : String
  email : String
  telefono : String
  mensaje : String
  fecha_creacion : String
  estado : String
deriving DecidableEq

/-- One spreadsheet row converted to a lead record as in
`SheetsService.obtener_leads`: each missing column defaults to the empty
string and the `estado` column to `"nuevo"`. -/
def rowToLead (row : List String) : LeadDict where
  id := row.getD 0 ""
  empresa := row.getD 1 ""
  nombre := row.getD 2 ""
  email := row.getD 3 ""
  telefono := row.getD 4 ""
  mensaje := row.getD 5 ""
  fecha_creacion := row.getD 6 ""
  estado := row.getD 7 "nuevo"

/-- `SheetsService.obtener_leads`: skip the header row, slice
`rows[1:limit+1]` top to bottom and convert each row. -/
def obtener_leads (rows : List (List String)) (limit : Nat) : List LeadDict :=
  ((rows.drop 1).take limit).map rowToLead

/-- C7: the lead list read returns at most `limit` records, in insertion
order (row `i+1` of the sheet becomes record `i`), and a short row is
padded with defaults per missing column instead of failing. -/
theorem c7_lead_list_read (rows : List (List String)) (limit : Nat) :
    (obtener_leads rows limit).length ≤ limit
    ∧ (∀ i, i < (obtener_leads rows limit).length →
        (obtener_leads rows limit)[i]? = (rows[i + 1]?).map rowToLead)
    ∧ (∀ row, (rowToLead row).id = row.getD 0 ""
        ∧ (rowToLead row).telefono = row.getD 4 ""
        ∧ (rowToLead row).estado = row.getD 7 "nuevo") := by
  refine ⟨?_, ?_, fun row => ⟨rfl, rfl, rfl⟩⟩
  · rw [obtener_leads, List.length_map, List.length_take]
    exact min_le_left _ _
  · intro i hi
    rw [obtener_leads] at hi ⊢
    have hil : i < limit := by
      rw [List.length_map, List.length_take] at hi
      exact lt_of_lt_of_le hi (min_le_left _ _)
    rw [List.getElem?_map, List.getElem?_take_of_lt hil, List.getElem?_drop,
      Nat.add_comm]

/-- Witness for C7 on a two-row sheet (header plus one short data row). -/
theorem c7_lead_list_witness :
    (obtener_leads [["h"], ["a"]] 2).length ≤ 2
    ∧ (obtener_leads [["h"], ["a"]] 2)[0]? =
        (([["h"], ["a"]] : List (List String))[1]?).map rowToLead :=
  ⟨(c7_lead_list_read [["h"], ["a"]] 2).1,
   (c7_lead_list_read [["h"], ["a"]] 2).2.1 0 (by decide)⟩

/-! ## `backend/agentes/agente_gemini.py` -/

/-- One turn of the provider-held chat history. -/
structure Turn where
  role : String
  text : String
deriving DecidableEq

/-- The observable state of one `AgenteGemini`: the provider-held history
(`chat.history`) and the `metadatos` dict. -/
structure AgenteState where
  historial : List Turn
  total_mensajes : Nat
  creado_en : String
deriving DecidableEq

/-- `AgenteGemini.__init__`: empty chat history, zero message counter,
creation timestamp recorded. -/
def newAgente (now : String) : AgenteState :=
  { historial := [], total_mensajes := 0, creado_en := now }

/-- `AgenteGemini.enviar_mensaje`: the argument `provider` is the outcome of
the external `chat.send_message` call (reply text, or the raised exception
message; the provider mutates its history only on success).  On success the
history grows by the user and model turns and `total_mensajes` is
incremented; on failure the exception is caught and the formatted error
text is returned as the reply string, with the state untouched. -/
def enviar_mensaje (st : AgenteState) (mensaje_usuario : String)
    (provider : Except String String) : AgenteState × String :=
  match provider with
  | .ok texto =>
    ({ st with
        historial :=
          st.historial ++ [⟨"user", mensaje_usuario⟩, ⟨"model", texto⟩],
        total_mensajes := st.total_mensajes + 1 }, texto)
  | .error e => (st, " ❌ Error: " ++ e)

/-- The dict returned by `AgenteGemini.obtener_estadisticas`. -/
structure Estadisticas where
  total_mensajes : Nat
  creado_en : String
  mensajes_en_historial : Nat
  costo_total : Nat
deriving DecidableEq

/-- `AgenteGemini.obtener_estadisticas`: the `metadatos` dict plus the
current history length and a fixed cost of 0. -/
def obtener_estadisticas (st : AgenteState) : Estadisticas :=
  { total_mensajes := st.total_mensajes, creado_en := st.creado_en,
    mensajes_en_historial := st.historial.length, costo_total := 0 }

/-- `AgenteGemini.limpiar_historial`: restart the chat with empty history;
`metadatos` is untouched. -/
def limpiar_historial (st : AgenteState) : AgenteState :=
  { st with historial := [] }

/-! ## `api/routes/chat.py` -/

/-- The module-level `sesiones` dict, as an association list. -/
abbrev Sesiones := List (String × AgenteState)

/-- `obtener_o_crear_sesion`: a falsy (absent or empty) identifier is
replaced by the fresh UUID `freshId`; an identifier not in the dict gets a
new agent registered under it; the agent stored under the identifier is
returned. -/
def obtener_o_crear_sesion (session_id : Option String) (freshId now : String)
    (ses : Sesiones) : String × AgenteState × Sesiones :=
  let sid := match session_id with
    | none => freshId
    | some s => if s = "" then freshId else s
  match ses.lookup sid with
  | some ag => (sid, ag, ses)
  | none => (sid, newAgente now, ses ++ [(sid, newAgente now)])

/-- The body of a successful `POST /chat/message` response. -/
structure MensajeResponse where
  respuesta : String
  session_id : String
  timestamp : String
  tokens_usados : Option Nat
deriving DecidableEq

/-- In-place mutation of the dict entry for `sid` in the Python source. -/
def updateSesion (sid : String) (ag : AgenteState) (ses : Sesiones) :
    Sesiones :=
  ses.map fun p => if p.1 = sid then (p.1, ag) else p

/-- The `POST /chat/message` handler `enviar_mensaje` of
`api/routes/chat.py`: resolve or create the session, forward the message to
the agent and wrap whatever string the agent returned in a successful
`MensajeResponse`.  The except branch of the handler (HTTP 500) is unreachable
for provider failures because `AgenteGemini.enviar_mensaje` catches them
and returns the error text as the reply. -/
def route_enviar_mensaje (session_id : Option String)
    (freshId now ts mensaje : String) (provider : Except String String)
    (ses : Sesiones) : MensajeResponse × Sesiones :=
  let r := obtener_o_crear_sesion session_id freshId now ses
  let a := enviar_mensaje r.2.1 mensaje provider
  ({ respuesta := a.2, session_id := r.1, timestamp := ts,
     tokens_usados := none },
   updateSesion r.1 a.1 r.2.2)

/-- The `DELETE /chat/clear/{session_id}` handler: 404 (`none`) when the
identifier is unknown, otherwise clear the stored agent in place and keep
the entry. -/
def route_limpiar_historial (session_id : String) (ses : Sesiones) :
    Option Sesiones :=
  match ses.lookup session_id with
  | none => none
  | some _ => some (updateSesionClear session_id ses)
where
  updateSesionClear (sid : String) (l : Sesiones) : Sesiones :=
    l.map fun p => if p.1 = sid then (p.1, limpiar_historial p.2) else p

/-- The `DELETE /chat/sessions/{session_id}` handler: 404 when unknown,
otherwise remove the entry entirely. -/
def eliminar_sesion (session_id : String) (ses : Sesiones) :
    Option Sesiones :=
  match ses.lookup session_id with
  | none => none
  | some _ => some (ses.filter fun p => p.1 != session_id)

/-! ### Claims C1, C2, C4, C10 -/

theorem lookup_map_update {f : AgenteState → AgenteState} {sid : String} :
    ∀ {ses : Sesiones} {ag : AgenteState}, ses.lookup sid = some ag →
      (ses.map fun p => if p.1 = sid then (p.1, f p.2) else p).lookup sid
        = some (f ag) := by
  intro ses
  induction ses with
  | nil => intro ag h; simp [List.lookup] at h
  | cons p rest ih =>
    intro ag h
    obtain ⟨k, v⟩ := p
    by_cases hk : sid = k
    · subst hk
      rw [List.lookup_cons, beq_self_eq_true] at h
      have hv : v = ag := Option.some.inj h
      subst hv
      simp only [List.map_cons]
      rw [if_pos trivial, List.lookup_cons, beq_self_eq_true]
    · have hk2 : (sid == k) = false := by simp [hk]
      rw [List.lookup_cons, hk2] at h
      simp only [List.map_cons]
      rw [if_neg (Ne.symm hk), List.lookup_cons, hk2]
      exact ih h

/-- C1 (code bug): when the provider call fails, the chat endpoint does not
fail with a 500: `AgenteGemini.enviar_mensaje` catches the exception and
returns the formatted raw error text as the reply, and the route wraps it
in a successful `MensajeResponse`, echoing the provider error to the
client. -/
theorem c1_provider_error_echoed_in_success :
    (route_enviar_mensaje none "s1" "t0" "ts0" "hola"
        (.error "quota exceeded") []).1
      = { respuesta := " ❌ Error: quota exceeded", session_id := "s1",
          timestamp := "ts0", tokens_usados := none }
    ∧ (route_enviar_mensaje none "s1" "t0" "ts0" "hola"
        (.error "quota exceeded") []).2
      = [("s1", newAgente "t0")] :=
  ⟨rfl, by decide⟩

/-- C2 counterexample: the claim says `resolve_or_create` mints a fresh,
never-previously-issued identifier whenever the given identifier is absent
or not registered.  The code instead registers a provided unregistered
identifier as-is: on the empty registry, `"abc-123"` is returned rather
than the freshly minted `"f-1"`; moreover after deleting the session the
same identifier is issued a second time with a new handle. -/
theorem c2_resolve_or_create_counterexample :
    (obtener_o_crear_sesion (some "abc-123") "f-1" "t0" []).1 = "abc-123"
    ∧ "abc-123" ≠ "f-1"
    ∧ eliminar_sesion "abc-123"
        (obtener_o_crear_sesion (some "abc-123") "f-1" "t0" []).2.2 = some []
    ∧ (obtener_o_crear_sesion (some "abc-123") "f-2" "t1" []).1
        = (obtener_o_crear_sesion (some "abc-123") "f-1" "t0" []).1 :=
  ⟨rfl, by decide, by decide, rfl⟩

/-- C2 as amended: a fresh identifier is minted only when the given
identifier is absent or empty; a provided non-empty unregistered identifier
is registered as-is with a new empty handle; a registered identifier
returns its existing handle with the registry unchanged (so, absent an
intervening delete, the same identifier never maps to two different
handles). -/
theorem c2_resolve_or_create_amended (ses : Sesiones) (freshId now : String) :
    (ses.lookup freshId = none →
      obtener_o_crear_sesion none freshId now ses
        = (freshId, newAgente now, ses ++ [(freshId, newAgente now)]))
    ∧ ∀ s : String, s ≠ "" →
        ((ses.lookup s = none →
            obtener_o_crear_sesion (some s) freshId now ses
              = (s, newAgente now, ses ++ [(s, newAgente now)]))
          ∧ ∀ ag, ses.lookup s = some ag →
              obtener_o_crear_sesion (some s) freshId now ses = (s, ag, ses)) := by
  refine ⟨fun h => ?_, fun s hs => ⟨fun h => ?_, fun ag h => ?_⟩⟩
  · rw [obtener_o_crear_sesion]
    simp only [h]
  · rw [obtener_o_crear_sesion]
    simp only [if_neg hs, h]
  · rw [obtener_o_crear_sesion]
    simp only [if_neg hs, h]

/-- Witness for the amended C2: an already-registered identifier returns
the stored handle and leaves the registry unchanged. -/
theorem c2_resolve_or_create_amended_witness :
    obtener_o_crear_sesion (some "s1") "f1" "t1" [("s1", newAgente "t0")]
      = ("s1", newAgente "t0", [("s1", newAgente "t0")]) :=
  ((c2_resolve_or_create_amended [("s1", newAgente "t0")] "f1" "t1").2 "s1"
      (by decide)).2 (newAgente "t0") (by decide)

/-- C4: clearing a registered session resets the number of messages in
history to 0, leaves the lifetime `total_mensajes` counter and the creation
timestamp unchanged, and keeps the session entry registered. -/
theorem c4_clear_keeps_entry_and_total (ses : Sesiones) (sid : String)
    (ag : AgenteState) (h : ses.lookup sid = some ag) :
    ∃ ses2, route_limpiar_historial sid ses = some ses2
      ∧ ses2.lookup sid = some (limpiar_historial ag)
      ∧ (obtener_estadisticas (limpiar_historial ag)).mensajes_en_historial = 0
      ∧ (limpiar_historial ag).total_mensajes = ag.total_mensajes
      ∧ (limpiar_historial ag).creado_en = ag.creado_en := by
  refine ⟨route_limpiar_historial.updateSesionClear sid ses, ?_, ?_, rfl, rfl, rfl⟩
  · rw [route_limpiar_historial, h]
  · exact lookup_map_update h

/-- Witness for C4 on a one-session registry with two turns of history. -/
theorem c4_clear_witness :
    ∃ ses2,
      route_limpiar_historial "s1"
          [("s1", ⟨[⟨"user", "hola"⟩, ⟨"model", "hi"⟩], 1, "t0"⟩)] = some ses2
        ∧ ses2.lookup "s1"
            = some (limpiar_historial ⟨[⟨"user", "hola"⟩, ⟨"model", "hi"⟩], 1, "t0"⟩)
        ∧ (obtener_estadisticas
            (limpiar_historial ⟨[⟨"user", "hola"⟩, ⟨"model", "hi"⟩], 1, "t0"⟩)).mensajes_en_historial = 0
        ∧ (limpiar_historial
            ⟨[⟨"user", "hola"⟩, ⟨"model", "hi"⟩], 1, "t0"⟩).total_mensajes = 1
        ∧ (limpiar_historial
            ⟨[⟨"user", "hola"⟩, ⟨"model", "hi"⟩], 1, "t0"⟩).creado_en = "t0" :=
  c4_clear_keeps_entry_and_total _ "s1" _ (by decide)

/-- C10: `total_mensajes` counts only successful provider calls: a
successful send increments it by exactly one (leaving `creado_en`
unchanged), a failed provider call leaves the whole state unchanged, and
the stats report exactly this counter, the current history length and a
cost of 0. -/
theorem c10_counter_counts_successful_sends (st : AgenteState)
    (mensaje texto err : String) :
    ((enviar_mensaje st mensaje (.ok texto)).1.total_mensajes
        = st.total_mensajes + 1
      ∧ (enviar_mensaje st mensaje (.ok texto)).1.creado_en = st.creado_en)
    ∧ (enviar_mensaje st mensaje (.error err)).1 = st
    ∧ obtener_estadisticas st
        = ⟨st.total_mensajes, st.creado_en, st.historial.length, 0⟩ :=
  ⟨⟨rfl, rfl⟩, rfl, rfl⟩

end GeminiChat
